import Mathlib

/-!
Verification of the scan orchestration and output-parsing engine of the
disk virus scanner (source: `code/gui.py`, class `VirusScannerGUI`).

The Python string operations used by the parser are modelled over
`List Char` so that the embedding is fully executable and amenable to
list-level reasoning:

* `pyStrip`    models `str.strip()` (ASCII whitespace; Python also strips
  `\x0b`/`\x0c` and Unicode spaces, which no scan-engine line contains),
* `strStarts`  models `str.startswith`,
* `strEnds`    models `str.endswith`,
* `strContains` models the `in` substring test,
* `pySplit`    models `str.split(c)` for a one-character separator,
* `pyParseInt` models `int(s)` (optional sign, ASCII digits, single
  interior underscores; Python additionally accepts Unicode digits,
  which clamscan never emits).
-/

namespace VirusCleanup

/-- Model of `str.strip()`: drop leading and trailing whitespace. -/
def pyStrip (s : String) : String :=
  String.mk (((s.data.dropWhile Char.isWhitespace).reverse.dropWhile Char.isWhitespace).reverse)

/-- Model of `str.startswith(p)`. -/
def strStarts (s p : String) : Bool :=
  p.data.isPrefixOf s.data

/-- Model of `str.endswith(p)`. -/
def strEnds (s p : String) : Bool :=
  p.data.isSuffixOf s.data

/-- Does `pat` occur as a contiguous sublist of `l`? (Model of Python `in`.) -/
def subListAt (pat : List Char) : List Char → Bool
  | [] => pat.isEmpty
  | c :: cs => pat.isPrefixOf (c :: cs) || subListAt pat cs

/-- Model of the `p in s` substring test. -/
def strContains (s p : String) : Bool :=
  subListAt p.data s.data

/-- Split a character list on a separator character, Python `str.split(sep)` style:
`"".split(c) = [""]`, separators at the ends produce empty groups. -/
def splitOnChar (sep : Char) : List Char → List (List Char)
  | [] => [[]]
  | c :: cs =>
    let r := splitOnChar sep cs
    if c == sep then [] :: r
    else
      match r with
      | [] => [[c]]
      | g :: gs => (c :: g) :: gs

/-- Model of `s.split(sep)` for a one-character separator. -/
def pySplit (s : String) (sep : Char) : List String :=
  (splitOnChar sep s.data).map String.mk

/-- Digit groups of a Python integer literal: every `_`-separated group is a
nonempty run of ASCII digits (`int("1_0")` parses, `int("_1")`, `int("1__0")` fail). -/
def pyDigitGroupsOk (parts : List String) : Bool :=
  !parts.isEmpty && parts.all (fun p => !p.data.isEmpty && p.data.all Char.isDigit)

/-- Numeric value of a pure digit string. -/
def pyParseNatDigits (s : String) : Nat :=
  s.data.foldl (fun acc c => acc * 10 + (c.toNat - 48)) 0

/-- Model of Python `int(s)` on a stripped argument: optional sign followed by
ASCII digits with single interior underscores; `none` models `ValueError`. -/
def pyParseInt (s : String) : Option Int :=
  let t := pyStrip s
  let signDigits : Int × String :=
    if strStarts t "-" then (-1, String.mk (t.data.drop 1))
    else if strStarts t "+" then (1, String.mk (t.data.drop 1))
    else (1, t)
  let parts := pySplit signDigits.2 '_'
  if pyDigitGroupsOk parts then
    some (signDigits.1 * (pyParseNatDigits (String.mk (parts.map String.data).flatten) : Int))
  else none

/-- The running scan counters of `self.scan_results`
(`scanned`, `infected`, `threats` in the source).  Python integers are
unbounded and `int()` can produce negative values, hence `Int`. -/
structure ScanResult where
  scanned : Int
  infected : Int
  threats : List String
deriving DecidableEq, Repr

/-- `line.split(':')[1].strip()` with the `IndexError` of a colon-free line
mapped to the empty string (in the source that `IndexError` is caught by the
same `except` clause as a `ValueError`, leading to the same fall-through). -/
def colonField (line : String) : String :=
  pyStrip ((pySplit line ':').getD 1 "")

/-- Body of `VirusScannerGUI.parse_scan_output` (gui.py lines 753-811) on the
stripped line.  The early `return`s of the Python method become the branch
structure; the `try/except (ValueError, IndexError): pass` around the summary
integer parse becomes the `Option` fall-through into the later rules. -/
def parse_scan_line (r : ScanResult) (line : String) : ScanResult :=
  if line.data.isEmpty then r
  else if strContains line " FOUND" || strEnds line " FOUND" then
    { r with infected := r.infected + 1, threats := r.threats ++ [line] }
  else
    match
      (if strContains line ":" then
        if strStarts line "Scanned files:" then
          (pyParseInt (colonField line)).map (fun n => { r with scanned := n })
        else if strStarts line "Infected files:" then
          (pyParseInt (colonField line)).map (fun n => { r with infected := n })
        else none
      else none : Option ScanResult)
    with
    | some rr => rr
    | none =>
      if strEnds line ": OK" || strEnds line ": Empty file" then
        { r with scanned := r.scanned + 1 }
      else if strContains line ": " &&
          (strEnds line " OK" || strEnds line " Empty file" || strEnds line " Excluded") then
        { r with scanned := r.scanned + 1 }
      else if strStarts line "/" && !strEnds line ":" && !strContains line ":" &&
          decide (10 < line.data.length) then
        { r with scanned := r.scanned + 1 }
      else r

/-- Transcription of `VirusScannerGUI.parse_scan_output`: the guard
`if not output or len(output.strip()) == 0: return` together with
`line = output.strip()` amounts to running the body on the stripped line. -/
def parse_scan_output (r : ScanResult) (output : String) : ScanResult :=
  parse_scan_line r (pyStrip output)

/-- The parser events of spec section 4.3. -/
inductive ScanEvent where
  | threatFound (descriptor : String)
  | summaryScanned (n : Int)
  | summaryInfected (n : Int)
  | fileOk
  | ignored
deriving DecidableEq, Repr

/-- Rule 1 of section 4.3: the line carries the infected-match token.
Predicate text taken from gui.py line 765. -/
def foundRuleHit (line : String) : Bool :=
  strContains line " FOUND" || strEnds line " FOUND"

/-- Rule 2 of section 4.3: leading `Scanned files:` label whose value part
parses as an integer; `none` when the rule does not match. -/
def scannedSummaryVal (line : String) : Option Int :=
  if strStarts line "Scanned files:" then pyParseInt (colonField line) else none

/-- Rule 3 of section 4.3: leading `Infected files:` label whose value part
parses as an integer. -/
def infectedSummaryVal (line : String) : Option Int :=
  if strStarts line "Infected files:" then pyParseInt (colonField line) else none

/-- Rule 4 of section 4.3: the `OK` / `Empty file` / `Excluded` end-of-line
markers, in the exact shape the source tests them (gui.py lines 793-803). -/
def okMarkerHit (line : String) : Bool :=
  strEnds line ": OK" || strEnds line ": Empty file" ||
    (strContains line ": " &&
      (strEnds line " OK" || strEnds line " Empty file" || strEnds line " Excluded"))

/-- Rule 5 of section 4.3: colon-free absolute-path-looking line of minimum
plausible length (gui.py lines 806-809). -/
def pathRuleHit (line : String) : Bool :=
  strStarts line "/" && !strEnds line ":" && !strContains line ":" &&
    decide (10 < line.data.length)

/-- Spec-side classifier on one stripped line: the six rules of section 4.3
applied in priority order, first match winning.  Written from the
specification's words; the rule predicates carry the source's literal
heuristics, which the specification directs to preserve. -/
def classifyLine (line : String) : ScanEvent :=
  if line.data.isEmpty then ScanEvent.ignored
  else if foundRuleHit line then ScanEvent.threatFound line
  else
    match scannedSummaryVal line with
    | some n => ScanEvent.summaryScanned n
    | none =>
      match infectedSummaryVal line with
      | some n => ScanEvent.summaryInfected n
      | none =>
        if okMarkerHit line then ScanEvent.fileOk
        else if pathRuleHit line then ScanEvent.fileOk
        else ScanEvent.ignored

/-- Spec-side classifier of a raw output line. -/
def classifySpec (output : String) : ScanEvent :=
  classifyLine (pyStrip output)

/-- Spec-side live-phase aggregator (section 4.4, live phase): `FileOk`
increments `filesScanned`; `ThreatFound` increments `threatsFound` and
records the descriptor; live summary events overwrite the counter directly. -/
def applyLiveSpec (r : ScanResult) : ScanEvent → ScanResult
  | ScanEvent.threatFound d =>
      { r with infected := r.infected + 1, threats := r.threats ++ [d] }
  | ScanEvent.summaryScanned n => { r with scanned := n }
  | ScanEvent.summaryInfected n => { r with infected := n }
  | ScanEvent.fileOk => { r with scanned := r.scanned + 1 }
  | ScanEvent.ignored => r

theorem subListAt_single (c : Char) (l : List Char) :
    subListAt [c] l = true ↔ c ∈ l := by
  induction l with
  | nil => simp [subListAt]
  | cons a as ih =>
    simp [subListAt, List.isPrefixOf, ih]

theorem mem_of_strStarts {s p : String} {c : Char}
    (h : strStarts s p = true) (hc : c ∈ p.data) : c ∈ s.data := by
  have hp : p.data <+: s.data := List.isPrefixOf_iff_prefix.mp h
  exact hp.subset hc

theorem strContains_colon_of_starts {s p : String}
    (h : strStarts s p = true) (hc : (':' : Char) ∈ p.data) :
    strContains s ":" = true := by
  have : (':' : Char) ∈ s.data := mem_of_strStarts h hc
  show subListAt (":".data) s.data = true
  have hd : (":".data) = [':'] := rfl
  rw [hd]
  exact (subListAt_single ':' s.data).mpr this

theorem not_starts_scanned_and_infected (line : String) :
    ¬(strStarts line "Scanned files:" = true ∧
      strStarts line "Infected files:" = true) := by
  rintro ⟨h1, h2⟩
  have p1 : ("Scanned files:").data <+: line.data := List.isPrefixOf_iff_prefix.mp h1
  have p2 : ("Infected files:").data <+: line.data := List.isPrefixOf_iff_prefix.mp h2
  rcases List.prefix_or_prefix_of_prefix p1 p2 with h | h
  · have : ("Scanned files:").data.isPrefixOf ("Infected files:").data = true :=
      List.isPrefixOf_iff_prefix.mpr h
    exact absurd this (by decide)
  · have : ("Infected files:").data.isPrefixOf ("Scanned files:").data = true :=
      List.isPrefixOf_iff_prefix.mpr h
    exact absurd this (by decide)

theorem strStarts_ne_empty {s p : String}
    (h : strStarts s p = true) (hp : p.data ≠ []) : s.data.isEmpty = false := by
  cases hs : s.data with
  | nil =>
    unfold strStarts at h
    rw [hs] at h
    cases hd : p.data with
    | nil => exact absurd hd hp
    | cons c cs => rw [hd] at h; simp [List.isPrefixOf] at h
  | cons c cs => simp

theorem ne_true_of_eq_false {b : Bool} (h : b = false) : ¬(b = true) := by
  rw [h]; exact Bool.false_ne_true

theorem markers_leaf (r : ScanResult) (line : String) :
    (if strEnds line ": OK" || strEnds line ": Empty file" then
        { r with scanned := r.scanned + 1 }
      else if strContains line ": " &&
          (strEnds line " OK" || strEnds line " Empty file" || strEnds line " Excluded") then
        { r with scanned := r.scanned + 1 }
      else if strStarts line "/" && !strEnds line ":" && !strContains line ":" &&
          decide (10 < line.data.length) then
        { r with scanned := r.scanned + 1 }
      else r)
    = applyLiveSpec r
        (if okMarkerHit line then ScanEvent.fileOk
         else if pathRuleHit line then ScanEvent.fileOk
         else ScanEvent.ignored) := by
  cases hA : (strEnds line ": OK" || strEnds line ": Empty file") with
  | true =>
    have hOk : okMarkerHit line = true := by unfold okMarkerHit; rw [hA]; rfl
    rw [hOk]; rfl
  | false =>
    cases hB : (strContains line ": " &&
        (strEnds line " OK" || strEnds line " Empty file" || strEnds line " Excluded")) with
    | true =>
      have hOk : okMarkerHit line = true := by unfold okMarkerHit; rw [hA, hB]; rfl
      rw [hOk]; rfl
    | false =>
      have hOk : okMarkerHit line = false := by unfold okMarkerHit; rw [hA, hB]; rfl
      cases hC : (strStarts line "/" && !strEnds line ":" && !strContains line ":" &&
          decide (10 < line.data.length)) with
      | true =>
        have hP : pathRuleHit line = true := by unfold pathRuleHit; exact hC
        rw [hOk, hP]; rfl
      | false =>
        have hP : pathRuleHit line = false := by unfold pathRuleHit; exact hC
        rw [hOk, hP]; rfl

theorem parse_line_factored (r : ScanResult) (line : String) :
    parse_scan_line r line = applyLiveSpec r (classifyLine line) := by
  have colS : strStarts line "Scanned files:" = true → strContains line ":" = true :=
    fun h => strContains_colon_of_starts h (by decide)
  have colI : strStarts line "Infected files:" = true → strContains line ":" = true :=
    fun h => strContains_colon_of_starts h (by decide)
  unfold parse_scan_line classifyLine
  by_cases h0 : line.data.isEmpty = true
  · rw [if_pos h0, if_pos h0]; rfl
  · rw [if_neg h0, if_neg h0]
    by_cases hf : foundRuleHit line = true
    · rw [if_pos (show (strContains line " FOUND" || strEnds line " FOUND") = true from hf),
        if_pos hf]
      rfl
    · rw [if_neg (show ¬(strContains line " FOUND" || strEnds line " FOUND") = true from hf),
        if_neg hf]
      by_cases hS : strStarts line "Scanned files:" = true
      · have hI : strStarts line "Infected files:" = false := by
          cases hIb : strStarts line "Infected files:"
          · rfl
          · exact absurd ⟨hS, hIb⟩ (not_starts_scanned_and_infected line)
        rw [if_pos (colS hS), if_pos hS]
        cases hp : pyParseInt (colonField line) with
        | some n =>
          simp only [scannedSummaryVal, if_pos hS, hp, Option.map_some']
          rfl
        | none =>
          simp only [scannedSummaryVal, infectedSummaryVal, if_pos hS, hp, hI,
            Option.map_none', Bool.false_eq_true, if_false]
          exact markers_leaf r line
      · by_cases hIb : strStarts line "Infected files:" = true
        · rw [if_pos (colI hIb), if_neg hS, if_pos hIb]
          cases hp : pyParseInt (colonField line) with
          | some n =>
            simp only [scannedSummaryVal, infectedSummaryVal, if_neg hS, if_pos hIb, hp,
              Option.map_some']
            rfl
          | none =>
            simp only [scannedSummaryVal, infectedSummaryVal, if_neg hS, if_pos hIb, hp,
              Option.map_none']
            exact markers_leaf r line
        · by_cases hc : strContains line ":" = true
          · rw [if_pos hc, if_neg hS, if_neg hIb]
            simp only [scannedSummaryVal, infectedSummaryVal, if_neg hS, if_neg hIb]
            exact markers_leaf r line
          · rw [if_neg hc]
            simp only [scannedSummaryVal, infectedSummaryVal, if_neg hS, if_neg hIb]
            exact markers_leaf r line

theorem parse_factored (r : ScanResult) (out : String) :
    parse_scan_output r out = applyLiveSpec r (classifySpec out) :=
  parse_line_factored r (pyStrip out)

/-- The counter branch of `VirusScannerGUI.parse_final_results` (gui.py lines
832-850): inside `if ":" in line`, a line containing a `Scanned files:` /
`Infected files:` label (substring test, both capitalisations) updates the
counter to the maximum of the current and the reported value; the
`Engine version:` / `Known viruses:` branches only log. -/
def final_counter_update (r : ScanResult) (line : String) : ScanResult :=
  if strContains line ":" then
    if strContains line "Scanned files:" || strContains line "scanned files:" then
      match pyParseInt (colonField line) with
      | some n => { r with scanned := max r.scanned n }
      | none => r
    else if strContains line "Infected files:" || strContains line "infected files:" then
      match pyParseInt (colonField line) with
      | some n => { r with infected := max r.infected n }
      | none => r
    else r
  else r

/-- One loop iteration of `VirusScannerGUI.parse_final_results` (gui.py lines
821-855).  Empty lines and `SCAN SUMMARY` / `-------` banner lines are
skipped (`continue`); the `summary_section` flag the banner branch sets is
never read in the source, so it carries no state here.  After the counter
branch, a line containing `FOUND` is appended to the threat list only if the
exact string is not already present. -/
def parse_final_line (r : ScanResult) (raw : String) : ScanResult :=
  let line := pyStrip raw
  if line.data.isEmpty then r
  else if strContains line "SCAN SUMMARY" || strStarts line "-------" then r
  else
    let r1 := final_counter_update r line
    if strContains line "FOUND" && !(r1.threats.contains line) then
      { r1 with threats := r1.threats ++ [line] }
    else r1

/-- Transcription of `VirusScannerGUI.parse_final_results` (gui.py lines
813-863): split the output on newlines and process each line in order. -/
def parse_final_results (r : ScanResult) (output : String) : ScanResult :=
  if output.data.isEmpty then r
  else (pySplit output '\n').foldl parse_final_line r

/-- Transcription of the post-exit drain in `perform_virus_scan` (gui.py
lines 711-718): the output buffered after the scan process exits is split on
newlines and each nonempty stripped line is fed to `parse_scan_output` —
not to `parse_final_results`, which no caller invokes. -/
def drain_remaining_output (r : ScanResult) (remaining : String) : ScanResult :=
  (pySplit remaining '\n').foldl
    (fun acc l =>
      let line := pyStrip l
      if line.data.isEmpty then acc else parse_scan_output acc line)
    r

theorem final_counter_update_threats (r : ScanResult) (line : String) :
    (final_counter_update r line).threats = r.threats := by
  unfold final_counter_update
  repeat' split
  all_goals rfl

/-- Replace every non-overlapping occurrence of a nonempty pattern,
left to right: model of Python `str.replace(pat, repl)`. -/
def replaceSub : List Char → List Char → List Char → List Char
  | _, _, [] => []
  | [], _, l => l
  | p :: ps, repl, c :: cs =>
    if (p :: ps).isPrefixOf (c :: cs) then
      repl ++ replaceSub (p :: ps) repl ((c :: cs).drop (p :: ps).length)
    else
      c :: replaceSub (p :: ps) repl cs
termination_by _ _ l => l.length
decreasing_by
  all_goals simp [List.length_drop]
  all_goals omega

/-- Model of `partition.replace('/', '_')` (single-character replace). -/
def pyReplaceSlash (s : String) : String :=
  String.mk (s.data.map (fun c => if c == '/' then '_' else c))

/-- The temporary mount-point path built in `perform_virus_scan` (gui.py line
631): `f"/tmp/virus_scan_{partition.replace('/', '_')}_{int(time.time())}"`,
with the whole-second timestamp passed in as `t`. -/
def mount_point_name (partition : String) (t : Nat) : String :=
  "/tmp/virus_scan_" ++ pyReplaceSlash partition ++ "_" ++ toString t

/-- Outcome of one mount attempt inside the deep-scan loop (gui.py lines
633-665): the read-only `mount` subprocess returns code 0 (`ok`), returns a
nonzero code (`failCode`), exceeds its 30-second bound
(`timeout`, `subprocess.TimeoutExpired`), or any other exception is raised,
including from `os.makedirs` (`exc`). -/
inductive MountOutcome where
  | ok
  | failCode
  | timeout
  | exc
deriving DecidableEq, Repr

/-- Did the mount attempt succeed? -/
def mountOk : MountOutcome → Bool
  | MountOutcome.ok => true
  | _ => false

/-- State threaded through the deep-scan mounting loop: the partitions whose
mount was attempted, the `scan_targets` and `mount_points` lists of the
source, and the mount-point directories removed again after a failed
attempt (the `os.rmdir(mount_point)` calls in the failure branches). -/
structure MountState where
  attempted : List String
  scanTargets : List String
  mountPoints : List String
  removedDirs : List String
deriving DecidableEq, Repr

/-- One iteration of the deep-scan mounting loop (gui.py lines 629-665),
with the subprocess outcome supplied by the oracle component of the pair.
On success the mount point joins both `scan_targets` and `mount_points`; on
any failure (`returncode != 0`, `TimeoutExpired`, or another exception, which
differ only in the message logged) the just-created mount-point directory is
removed and the loop moves on. -/
def mount_step (t : Nat) (st : MountState) (pe : String × MountOutcome) : MountState :=
  let mp := mount_point_name pe.1 t
  match pe.2 with
  | MountOutcome.ok =>
      { st with attempted := st.attempted ++ [pe.1],
                scanTargets := st.scanTargets ++ [mp],
                mountPoints := st.mountPoints ++ [mp] }
  | MountOutcome.failCode =>
      { st with attempted := st.attempted ++ [pe.1],
                removedDirs := st.removedDirs ++ [mp] }
  | MountOutcome.timeout =>
      { st with attempted := st.attempted ++ [pe.1],
                removedDirs := st.removedDirs ++ [mp] }
  | MountOutcome.exc =>
      { st with attempted := st.attempted ++ [pe.1],
                removedDirs := st.removedDirs ++ [mp] }

/-- The whole mounting loop over the discovered partitions, starting from the
empty `scan_targets` / `mount_points` of gui.py lines 614-615. -/
def mount_partitions (t : Nat) (parts : List (String × MountOutcome)) : MountState :=
  parts.foldl (mount_step t) ⟨[], [], [], []⟩

/-- Transcription of `VirusScannerGUI.get_disk_partitions` (gui.py lines
157-185).  The `lsblkOutput` argument models the `lsblk` subprocess: `none`
is the exception path of the source's `try`, which logs a warning and
returns the empty list.  On output, the first line (the disk itself) is
skipped and tree-drawing characters are stripped from partition names. -/
def get_disk_partitions (device : String) (lsblkOutput : Option String) : List String :=
  match lsblkOutput with
  | none => []
  | some output =>
    let base_device := String.mk (replaceSub ("/dev/".data) [] device.data)
    let outLines := pySplit (pyStrip output) '\n'
    (outLines.drop 1).foldl
      (fun acc rawLine =>
        let part0 := pyStrip rawLine
        let part :=
          if strStarts part0 "├─" || strStarts part0 "└─" then
            pyStrip (String.mk (replaceSub ("└─".data) []
              (replaceSub ("├─".data) [] part0.data)))
          else part0
        if !part.data.isEmpty && part != base_device then
          acc ++ ["/dev/" ++ part]
        else acc)
      []

/-- Scan-target resolution of `perform_virus_scan` (gui.py lines 618-673):
quick mode scans `/`; deep mode mounts the discovered partitions, falling
back to `/` when no partitions were found or none could be mounted. -/
def resolveScanTargets (mode : String) (t : Nat)
    (parts : List (String × MountOutcome)) : List String :=
  if mode == "deep" then
    if parts.isEmpty then ["/"]
    else
      if (mount_partitions t parts).scanTargets.isEmpty then ["/"]
      else (mount_partitions t parts).scanTargets
  else ["/"]

/-- Outcome of one iteration of the cleanup loop in the `finally` block of
`perform_virus_scan` (gui.py lines 734-751), by exception behaviour of the
graceful `umount` (10 s bound):
`completed b` — the graceful run returned, `os.rmdir` was then attempted and
raised iff `b = false` (caught by `except Exception`);
`timeoutForcedOk` — `TimeoutExpired`, then the forced `umount -f` (5 s bound)
completed and `os.rmdir` was attempted;
`timeoutForcedFail` — `TimeoutExpired`, then the forced `umount -f` itself
raised, so the bare `except` fires and `os.rmdir` is never attempted;
`otherError` — the graceful run raised a non-timeout exception, caught by
`except Exception`, which only logs, so `os.rmdir` is never attempted. -/
inductive UnmountOutcome where
  | completed (rmdirOk : Bool)
  | timeoutForcedOk
  | timeoutForcedFail
  | otherError
deriving DecidableEq, Repr

/-- Trace of the cleanup loop: which mount points had a graceful unmount
attempted, a forced unmount attempted, a directory removal attempted, and
the warnings logged.  No constructor of this function raises: every branch
of the source iteration is covered by an `except` clause. -/
structure CleanupTrace where
  gracefulAttempts : List String
  forcedAttempts : List String
  rmdirAttempts : List String
  warnings : List String
deriving DecidableEq, Repr

/-- One iteration of the cleanup loop over `mount_points`. -/
def cleanup_step (tr : CleanupTrace) (pe : String × UnmountOutcome) : CleanupTrace :=
  let mp := pe.1
  match pe.2 with
  | UnmountOutcome.completed rmdirOk =>
      { tr with gracefulAttempts := tr.gracefulAttempts ++ [mp],
                rmdirAttempts := tr.rmdirAttempts ++ [mp],
                warnings := tr.warnings ++
                  (if rmdirOk then [] else ["Cleanup failed for " ++ mp]) }
  | UnmountOutcome.timeoutForcedOk =>
      { tr with gracefulAttempts := tr.gracefulAttempts ++ [mp],
                forcedAttempts := tr.forcedAttempts ++ [mp],
                rmdirAttempts := tr.rmdirAttempts ++ [mp] }
  | UnmountOutcome.timeoutForcedFail =>
      { tr with gracefulAttempts := tr.gracefulAttempts ++ [mp],
                forcedAttempts := tr.forcedAttempts ++ [mp],
                warnings := tr.warnings ++ ["Failed to force unmount " ++ mp] }
  | UnmountOutcome.otherError =>
      { tr with gracefulAttempts := tr.gracefulAttempts ++ [mp],
                warnings := tr.warnings ++ ["Cleanup failed for " ++ mp] }

/-- The whole cleanup loop of the `finally` block, over every mount point
recorded during the session. -/
def cleanup_mount_points (recs : List (String × UnmountOutcome)) : CleanupTrace :=
  recs.foldl cleanup_step ⟨[], [], [], []⟩

/-- Is the `os.rmdir` call reached for this outcome? -/
def rmdirReached : UnmountOutcome → Bool
  | UnmountOutcome.completed _ => true
  | UnmountOutcome.timeoutForcedOk => true
  | _ => false

/-- Is the forced `umount -f` call reached for this outcome? -/
def forcedReached : UnmountOutcome → Bool
  | UnmountOutcome.timeoutForcedOk => true
  | UnmountOutcome.timeoutForcedFail => true
  | _ => false

theorem mount_foldl (t : Nat) (parts : List (String × MountOutcome)) (st : MountState) :
    (parts.foldl (mount_step t) st).attempted
        = st.attempted ++ parts.map (fun pe => pe.1)
    ∧ (parts.foldl (mount_step t) st).scanTargets
        = st.scanTargets
          ++ (parts.filter (fun pe => mountOk pe.2)).map (fun pe => mount_point_name pe.1 t)
    ∧ (parts.foldl (mount_step t) st).mountPoints
        = st.mountPoints
          ++ (parts.filter (fun pe => mountOk pe.2)).map (fun pe => mount_point_name pe.1 t)
    ∧ (parts.foldl (mount_step t) st).removedDirs
        = st.removedDirs
          ++ (parts.filter (fun pe => !mountOk pe.2)).map (fun pe => mount_point_name pe.1 t) := by
  induction parts generalizing st with
  | nil => simp
  | cons p ps ih =>
    cases hpo : p.2 with
    | ok =>
      obtain ⟨h1, h2, h3, h4⟩ := ih (mount_step t st p)
      simp only [mount_step, hpo, mountOk] at h1 h2 h3 h4
      refine ⟨?_, ?_, ?_, ?_⟩ <;>
        simp [List.foldl_cons, mount_step, hpo, mountOk, List.filter_cons,
          h1, h2, h3, h4, List.append_assoc]
    | failCode =>
      obtain ⟨h1, h2, h3, h4⟩ := ih (mount_step t st p)
      simp only [mount_step, hpo, mountOk] at h1 h2 h3 h4
      refine ⟨?_, ?_, ?_, ?_⟩ <;>
        simp [List.foldl_cons, mount_step, hpo, mountOk, List.filter_cons,
          h1, h2, h3, h4, List.append_assoc]
    | timeout =>
      obtain ⟨h1, h2, h3, h4⟩ := ih (mount_step t st p)
      simp only [mount_step, hpo, mountOk] at h1 h2 h3 h4
      refine ⟨?_, ?_, ?_, ?_⟩ <;>
        simp [List.foldl_cons, mount_step, hpo, mountOk, List.filter_cons,
          h1, h2, h3, h4, List.append_assoc]
    | exc =>
      obtain ⟨h1, h2, h3, h4⟩ := ih (mount_step t st p)
      simp only [mount_step, hpo, mountOk] at h1 h2 h3 h4
      refine ⟨?_, ?_, ?_, ?_⟩ <;>
        simp [List.foldl_cons, mount_step, hpo, mountOk, List.filter_cons,
          h1, h2, h3, h4, List.append_assoc]

theorem cleanup_foldl (recs : List (String × UnmountOutcome)) (tr : CleanupTrace) :
    (recs.foldl cleanup_step tr).gracefulAttempts
        = tr.gracefulAttempts ++ recs.map (fun pe => pe.1)
    ∧ (recs.foldl cleanup_step tr).forcedAttempts
        = tr.forcedAttempts ++ (recs.filter (fun pe => forcedReached pe.2)).map (fun pe => pe.1)
    ∧ (recs.foldl cleanup_step tr).rmdirAttempts
        = tr.rmdirAttempts ++ (recs.filter (fun pe => rmdirReached pe.2)).map (fun pe => pe.1) := by
  induction recs generalizing tr with
  | nil => simp
  | cons p ps ih =>
    cases hpo : p.2 with
    | completed b =>
      obtain ⟨h1, h2, h3⟩ := ih (cleanup_step tr p)
      simp only [cleanup_step, hpo, rmdirReached, forcedReached] at h1 h2 h3
      refine ⟨?_, ?_, ?_⟩ <;>
        simp [List.foldl_cons, cleanup_step, hpo, rmdirReached, forcedReached,
          List.filter_cons, h1, h2, h3, List.append_assoc]
    | timeoutForcedOk =>
      obtain ⟨h1, h2, h3⟩ := ih (cleanup_step tr p)
      simp only [cleanup_step, hpo, rmdirReached, forcedReached] at h1 h2 h3
      refine ⟨?_, ?_, ?_⟩ <;>
        simp [List.foldl_cons, cleanup_step, hpo, rmdirReached, forcedReached,
          List.filter_cons, h1, h2, h3, List.append_assoc]
    | timeoutForcedFail =>
      obtain ⟨h1, h2, h3⟩ := ih (cleanup_step tr p)
      simp only [cleanup_step, hpo, rmdirReached, forcedReached] at h1 h2 h3
      refine ⟨?_, ?_, ?_⟩ <;>
        simp [List.foldl_cons, cleanup_step, hpo, rmdirReached, forcedReached,
          List.filter_cons, h1, h2, h3, List.append_assoc]
    | otherError =>
      obtain ⟨h1, h2, h3⟩ := ih (cleanup_step tr p)
      simp only [cleanup_step, hpo, rmdirReached, forcedReached] at h1 h2 h3
      refine ⟨?_, ?_, ?_⟩ <;>
        simp [List.foldl_cons, cleanup_step, hpo, rmdirReached, forcedReached,
          List.filter_cons, h1, h2, h3, List.append_assoc]

/-- Is the event a summary-counter overwrite? -/
def isSummaryEvent : ScanEvent → Bool
  | ScanEvent.summaryScanned _ => true
  | ScanEvent.summaryInfected _ => true
  | _ => false

/-- C4: for every input line, the classifier applies the six rules of spec
section 4.3 in priority order with first match winning — `parse_scan_output`
is exactly the composition of the priority-ordered classifier `classifySpec`
(rule 1 `ThreatFound`, rule 2 `SummaryScanned`, rule 3 `SummaryInfected`,
rules 4/5 `FileOk`, rule 6 `Ignored`) with the live aggregator
`applyLiveSpec`; moreover a nonempty line matching the `FOUND` rule is
classified `ThreatFound` even when it also matches a summary or OK pattern,
because rule 1 is tested first. -/
theorem c4_classifier_priority_cascade :
    (∀ (r : ScanResult) (out : String),
        parse_scan_output r out = applyLiveSpec r (classifySpec out))
    ∧ (∀ out : String, (pyStrip out).data.isEmpty = false →
        foundRuleHit (pyStrip out) = true →
        classifySpec out = ScanEvent.threatFound (pyStrip out)) := by
  refine ⟨parse_factored, ?_⟩
  intro out h0 hf
  unfold classifySpec classifyLine
  rw [if_neg (ne_true_of_eq_false h0), if_pos hf]

/-- Witness for C4: the line `Scanned files: 12 FOUND` matches both the
summary pattern and the `FOUND` token and is classified `ThreatFound`. -/
theorem c4_classifier_priority_cascade_witness :
    parse_scan_output ⟨3, 0, []⟩ "Scanned files: 12 FOUND"
        = applyLiveSpec ⟨3, 0, []⟩ (classifySpec "Scanned files: 12 FOUND")
    ∧ classifySpec "Scanned files: 12 FOUND"
        = ScanEvent.threatFound "Scanned files: 12 FOUND" :=
  ⟨c4_classifier_priority_cascade.1 ⟨3, 0, []⟩ "Scanned files: 12 FOUND",
   c4_classifier_priority_cascade.2 "Scanned files: 12 FOUND" (by decide) (by decide)⟩

/-- C6: processing the seven scenario lines of spec section 8 in order from
a zeroed `ScanResult` yields `filesScanned = 12`, `threatsFound = 1` and the
single threat descriptor. -/
theorem c6_scenario_final_result :
    ([ "Scanned files: 10", "/a/b/c: OK", "eicar.com: Win.Test.EICAR_HDB-1 FOUND",
       "Infected files: 1", "SCAN SUMMARY", "Scanned files: 12",
       "Infected files: 1" ].foldl parse_scan_output ⟨0, 0, []⟩)
    = ⟨12, 1, ["eicar.com: Win.Test.EICAR_HDB-1 FOUND"]⟩ := by decide

/-- Counterexample to C3 as stated: during the live phase a later
`Scanned files:` summary line reporting a smaller engine total overwrites
`filesScanned` downwards (12 to 5), so live updates are not monotonically
non-decreasing for every line sequence. -/
theorem c3_live_summary_decrease_counterexample :
    (parse_scan_output ⟨0, 0, []⟩ "Scanned files: 12").scanned = 12
    ∧ (parse_scan_output (parse_scan_output ⟨0, 0, []⟩ "Scanned files: 12")
        "Scanned files: 5").scanned = 5
    ∧ ¬((12 : Int) ≤ 5) := by decide

/-- C3 amended: every live update whose line is not classified as a summary
overwrite (`SummaryScanned`/`SummaryInfected`) leaves `filesScanned` and
`threatsFound` no smaller than before; the summary overwrites themselves
write the engine-reported value directly and may decrease a counter. -/
theorem c3_nonsummary_monotone (r : ScanResult) (out : String)
    (h : isSummaryEvent (classifySpec out) = false) :
    r.scanned ≤ (parse_scan_output r out).scanned
    ∧ r.infected ≤ (parse_scan_output r out).infected := by
  rw [parse_factored]
  cases hc : classifySpec out with
  | threatFound d => constructor <;> simp [applyLiveSpec]
  | summaryScanned n => rw [hc] at h; simp [isSummaryEvent] at h
  | summaryInfected n => rw [hc] at h; simp [isSummaryEvent] at h
  | fileOk => constructor <;> simp [applyLiveSpec]
  | ignored => exact ⟨le_refl _, le_refl _⟩

/-- Witness for C3 amended at a `FileOk` line. -/
theorem c3_nonsummary_monotone_witness :
    (⟨5, 2, ["t"]⟩ : ScanResult).scanned
        ≤ (parse_scan_output ⟨5, 2, ["t"]⟩ "/a/b/c: OK").scanned
    ∧ (⟨5, 2, ["t"]⟩ : ScanResult).infected
        ≤ (parse_scan_output ⟨5, 2, ["t"]⟩ "/a/b/c: OK").infected :=
  c3_nonsummary_monotone ⟨5, 2, ["t"]⟩ "/a/b/c: OK" (by decide)

/-- Counterexample to C5 as stated: `Scanned files: OK` starts with the
summary label and its value part is not a parseable integer, yet the line is
not treated as `Ignored` — the parse failure falls through to the `": OK"`
file-marker rule and `filesScanned` is incremented. -/
theorem c5_malformed_summary_counterexample :
    strStarts "Scanned files: OK" "Scanned files:" = true
    ∧ pyParseInt (colonField "Scanned files: OK") = none
    ∧ classifySpec "Scanned files: OK" = ScanEvent.fileOk
    ∧ (parse_scan_output ⟨0, 0, []⟩ "Scanned files: OK").scanned = 1 := by decide

/-- C5 amended: a summary-labelled line with an unparseable value never
raises (the embedding is total, mirroring `except (ValueError, IndexError):
pass`); the failed summary rule simply does not match, evaluation falls
through to the later rules, and when none of the `FOUND` / file-marker /
path rules matches either, the line is `Ignored` and the counters keep
exactly their prior values. -/
theorem c5_malformed_summary_fallthrough (r : ScanResult) (out : String)
    (h1 : foundRuleHit (pyStrip out) = false)
    (h2 : strStarts (pyStrip out) "Scanned files:" = true
          ∨ strStarts (pyStrip out) "Infected files:" = true)
    (h3 : pyParseInt (colonField (pyStrip out)) = none)
    (h4 : okMarkerHit (pyStrip out) = false)
    (h5 : pathRuleHit (pyStrip out) = false) :
    classifySpec out = ScanEvent.ignored ∧ parse_scan_output r out = r := by
  have h0 : (pyStrip out).data.isEmpty = false := by
    cases h2 with
    | inl h => exact strStarts_ne_empty h (by decide)
    | inr h => exact strStarts_ne_empty h (by decide)
  have hS : scannedSummaryVal (pyStrip out) = none := by
    unfold scannedSummaryVal
    by_cases hs : strStarts (pyStrip out) "Scanned files:" = true
    · rw [if_pos hs]; exact h3
    · rw [if_neg hs]
  have hI : infectedSummaryVal (pyStrip out) = none := by
    unfold infectedSummaryVal
    by_cases hs : strStarts (pyStrip out) "Infected files:" = true
    · rw [if_pos hs]; exact h3
    · rw [if_neg hs]
  have hcls : classifySpec out = ScanEvent.ignored := by
    unfold classifySpec classifyLine
    rw [if_neg (ne_true_of_eq_false h0), if_neg (ne_true_of_eq_false h1), hS, hI,
      if_neg (ne_true_of_eq_false h4), if_neg (ne_true_of_eq_false h5)]
  refine ⟨hcls, ?_⟩
  rw [parse_factored, hcls]; rfl

/-- Witness for C5 amended: `Infected files: twelve` is ignored and the
counters are unchanged. -/
theorem c5_malformed_summary_fallthrough_witness :
    classifySpec "Infected files: twelve" = ScanEvent.ignored
    ∧ parse_scan_output ⟨5, 6, ["t"]⟩ "Infected files: twelve" = ⟨5, 6, ["t"]⟩ :=
  c5_malformed_summary_fallthrough ⟨5, 6, ["t"]⟩ "Infected files: twelve"
    (by decide) (Or.inr (by decide)) (by decide) (by decide) (by decide)

/-- C10: each parser event mutates only its own counters — a `ThreatFound`
line leaves `filesScanned` unchanged, a `SummaryScanned` line leaves
`threatsFound` and the descriptors unchanged, a `SummaryInfected` line
leaves `filesScanned` and the descriptors unchanged, and an empty or
whitespace-only line changes nothing. -/
theorem c10_event_frame_conditions (r : ScanResult) (out : String) :
    (∀ d, classifySpec out = ScanEvent.threatFound d →
        (parse_scan_output r out).scanned = r.scanned)
    ∧ (∀ n, classifySpec out = ScanEvent.summaryScanned n →
        (parse_scan_output r out).infected = r.infected
        ∧ (parse_scan_output r out).threats = r.threats)
    ∧ (∀ n, classifySpec out = ScanEvent.summaryInfected n →
        (parse_scan_output r out).scanned = r.scanned
        ∧ (parse_scan_output r out).threats = r.threats)
    ∧ ((pyStrip out).data.isEmpty = true → parse_scan_output r out = r) := by
  refine ⟨?_, ?_, ?_, ?_⟩
  · intro d hd; rw [parse_factored, hd]; rfl
  · intro n hn; rw [parse_factored, hn]; exact ⟨rfl, rfl⟩
  · intro n hn; rw [parse_factored, hn]; exact ⟨rfl, rfl⟩
  · intro h0
    rw [parse_factored]
    unfold classifySpec classifyLine
    rw [if_pos h0]; rfl

/-- Witness for C10 at a threat line, both summary lines, and a
whitespace-only line. -/
theorem c10_event_frame_conditions_witness :
    (parse_scan_output ⟨7, 1, ["x"]⟩ "f: Eicar-Sig FOUND").scanned = 7
    ∧ ((parse_scan_output ⟨7, 1, ["x"]⟩ "Scanned files: 3").infected = 1
       ∧ (parse_scan_output ⟨7, 1, ["x"]⟩ "Scanned files: 3").threats = ["x"])
    ∧ ((parse_scan_output ⟨7, 1, ["x"]⟩ "Infected files: 4").scanned = 7
       ∧ (parse_scan_output ⟨7, 1, ["x"]⟩ "Infected files: 4").threats = ["x"])
    ∧ parse_scan_output ⟨7, 1, ["x"]⟩ "   " = ⟨7, 1, ["x"]⟩ :=
  ⟨(c10_event_frame_conditions ⟨7, 1, ["x"]⟩ "f: Eicar-Sig FOUND").1
      "f: Eicar-Sig FOUND" (by decide),
   (c10_event_frame_conditions ⟨7, 1, ["x"]⟩ "Scanned files: 3").2.1 3 (by decide),
   (c10_event_frame_conditions ⟨7, 1, ["x"]⟩ "Infected files: 4").2.2.1 4 (by decide),
   (c10_event_frame_conditions ⟨7, 1, ["x"]⟩ "   ").2.2.2 (by decide)⟩

end VirusCleanup

namespace VirusCleanup

/-- Counterexample to C1 as stated: feeding the same `ThreatFound` line to
the live aggregator (`parse_scan_output`) twice records the descriptor
twice — the live path appends unconditionally, with no presence check. -/
theorem c1_live_duplicate_descriptor_counterexample :
    (parse_scan_output (parse_scan_output ⟨0, 0, []⟩ "eicar.com: Eicar-Test FOUND")
        "eicar.com: Eicar-Test FOUND").threats
      = ["eicar.com: Eicar-Test FOUND", "eicar.com: Eicar-Test FOUND"] := by decide

/-- C1 amended: only the final-results parser deduplicates — in
`parse_final_line` a `FOUND` line whose exact string is already present in
`threatDescriptors` is never appended again, while the live-phase parser
appends every `ThreatFound` descriptor unconditionally. -/
theorem c1_final_results_dedup (r : ScanResult) (raw : String)
    (h : r.threats.contains (pyStrip raw) = true) :
    (parse_final_line r raw).threats = r.threats := by
  unfold parse_final_line
  by_cases h0 : (pyStrip raw).data.isEmpty = true
  · rw [if_pos h0]
  · rw [if_neg h0]
    by_cases h1 : (strContains (pyStrip raw) "SCAN SUMMARY"
        || strStarts (pyStrip raw) "-------") = true
    · rw [if_pos h1]
    · rw [if_neg h1]
      have ht := final_counter_update_threats r (pyStrip raw)
      have hcontains :
          (final_counter_update r (pyStrip raw)).threats.contains (pyStrip raw) = true := by
        rw [ht]; exact h
      simp only [hcontains, Bool.not_true, Bool.and_false, Bool.false_eq_true, if_false]
      exact ht

/-- Witness for C1 amended: a descriptor already recorded is not duplicated
by the final-results parser. -/
theorem c1_final_results_dedup_witness :
    (parse_final_line ⟨0, 1, ["a.txt: Sig FOUND"]⟩ "a.txt: Sig FOUND").threats
      = ["a.txt: Sig FOUND"] :=
  c1_final_results_dedup ⟨0, 1, ["a.txt: Sig FOUND"]⟩ "a.txt: Sig FOUND" (by decide)

/-- C2 (code bug): the output buffered after the scan process exits is fed
to `parse_scan_output` (gui.py lines 711-718), whose summary handling
overwrites the counter directly, so a buffered `Scanned files: 10` drops a
live-parsed `filesScanned` of 12 down to 10; `parse_final_results`, the
routine that implements the specified max-reconciliation and would keep 12,
is defined in the source but never called. -/
theorem c2_reconciliation_overwrite_decreases :
    (drain_remaining_output ⟨12, 0, []⟩ "Scanned files: 10").scanned = 10
    ∧ (parse_final_results ⟨12, 0, []⟩ "Scanned files: 10").scanned = 12
    ∧ ((10 : Int) < 12) := by decide

/-- C7: the deep-scan mounting loop attempts every partition in sequence —
a failure never aborts the loop — and for every partition the mount point
joins `scan_targets` and `mount_points` exactly when the mount succeeded,
while every failed attempt (nonzero exit, 30 s timeout, or exception) has
its just-created mount-point directory removed before moving on. -/
theorem c7_mount_failure_isolated (t : Nat) (parts : List (String × MountOutcome)) :
    (mount_partitions t parts).attempted = parts.map (fun pe => pe.1)
    ∧ (mount_partitions t parts).scanTargets
        = (parts.filter (fun pe => mountOk pe.2)).map (fun pe => mount_point_name pe.1 t)
    ∧ (mount_partitions t parts).mountPoints
        = (parts.filter (fun pe => mountOk pe.2)).map (fun pe => mount_point_name pe.1 t)
    ∧ (mount_partitions t parts).removedDirs
        = (parts.filter (fun pe => !mountOk pe.2)).map (fun pe => mount_point_name pe.1 t) := by
  have h := mount_foldl t parts ⟨[], [], [], []⟩
  simpa [mount_partitions] using h

/-- C8: when partition discovery returns nothing (in particular when the
underlying `lsblk` query fails, which is reported as the empty list, not an
error) or when none of the discovered partitions mounts successfully, the
deep-mode session still resolves the live root filesystem `/` as the sole
scan target instead of failing. -/
theorem c8_deep_mode_fallback (device : String) (t : Nat)
    (parts : List (String × MountOutcome))
    (h : parts = [] ∨ ∀ pe ∈ parts, mountOk pe.2 = false) :
    get_disk_partitions device none = [] ∧ resolveScanTargets "deep" t parts = ["/"] := by
  refine ⟨rfl, ?_⟩
  cases h with
  | inl he => rw [he]; rfl
  | inr hall =>
    have hfil : parts.filter (fun pe => mountOk pe.2) = [] :=
      List.filter_eq_nil_iff.mpr (by intro a ha; simp [hall a ha])
    have hst : (mount_partitions t parts).scanTargets = [] := by
      have h2 := (mount_foldl t parts ⟨[], [], [], []⟩).2.1
      simpa [mount_partitions, hfil] using h2
    unfold resolveScanTargets
    by_cases hne : parts.isEmpty = true
    · rw [if_pos (by decide), if_pos hne]
    · rw [if_pos (by decide), if_neg hne, hst]
      rfl

/-- Witness for C8: two partitions, one mount timeout and one mount failure,
still resolve to the root-filesystem target. -/
theorem c8_deep_mode_fallback_witness :
    get_disk_partitions "/dev/sdb" none = []
    ∧ resolveScanTargets "deep" 0
        [("/dev/sdb1", MountOutcome.timeout), ("/dev/sdb2", MountOutcome.failCode)]
      = ["/"] :=
  c8_deep_mode_fallback "/dev/sdb" 0
    [("/dev/sdb1", MountOutcome.timeout), ("/dev/sdb2", MountOutcome.failCode)]
    (Or.inr (by decide))

/-- Counterexample to C9 as stated: when the graceful unmount times out and
the forced unmount then fails too, the bare `except` in gui.py lines 748-749
only logs — the mount-point directory removal is never attempted for that
mount point, contradicting "regardless of outcome the mount-point directory
removal is attempted". -/
theorem c9_forced_unmount_skips_rmdir_counterexample :
    (cleanup_mount_points
        [("/tmp/virus_scan__dev_sdb1_0", UnmountOutcome.timeoutForcedFail)]).gracefulAttempts
      = ["/tmp/virus_scan__dev_sdb1_0"]
    ∧ (cleanup_mount_points
        [("/tmp/virus_scan__dev_sdb1_0", UnmountOutcome.timeoutForcedFail)]).forcedAttempts
      = ["/tmp/virus_scan__dev_sdb1_0"]
    ∧ (cleanup_mount_points
        [("/tmp/virus_scan__dev_sdb1_0", UnmountOutcome.timeoutForcedFail)]).rmdirAttempts
      = [] := by decide

/-- C9 amended: the cleanup loop in the `finally` block runs for every mount
point recorded during the session (hence on every exit path) and never
propagates an exception (the embedding is total; every source branch is
covered by an `except`); the graceful unmount is attempted for every mount
point, the forced unmount exactly on graceful timeout, and the directory
removal exactly when the graceful run completed or the forced unmount
completed — not when the forced unmount fails or a non-timeout exception
occurs, where the failure is only logged. -/
theorem c9_cleanup_trace (recs : List (String × UnmountOutcome)) :
    (cleanup_mount_points recs).gracefulAttempts = recs.map (fun pe => pe.1)
    ∧ (cleanup_mount_points recs).forcedAttempts
        = (recs.filter (fun pe => forcedReached pe.2)).map (fun pe => pe.1)
    ∧ (cleanup_mount_points recs).rmdirAttempts
        = (recs.filter (fun pe => rmdirReached pe.2)).map (fun pe => pe.1) := by
  have h := cleanup_foldl recs ⟨[], [], [], []⟩
  simpa [cleanup_mount_points] using h

end VirusCleanup
